import Mathlib

/-!
Verification development for the scrapeshifter lead-enrichment pipeline.

Shallow embedding of:
- `app/pipeline/types.py` (StopCondition, PipelineContext)
- `app/pipeline/engine.py` (PipelineEngine.run)
- `app/pipeline/validator.py` (entropy poison, blacklist, cross-source consensus)
- `app/pipeline/stations/enrichment.py` (ChimeraStation.process, TelnyxGatekeepStation.process)

Python dictionaries are modelled as association lists over string keys with
tagged values; machine floats (costs/budgets) are modelled as rationals;
Redis is modelled as an explicit state record; station effects are modelled
as explicit behaviour functions / outcome lists.
-/

namespace Scrapegoat

/-- A Python value as carried in a lead record or a station delta. -/
inductive Value where
  | str (s : String)
  | num (q : ℚ)
  | bool (b : Bool)
  | null
  | raw (tag : Nat)
deriving DecidableEq, Repr

/-- Python truthiness of a `Value` (empty string, zero, False, None are falsy). -/
def Value.truthy : Value → Bool
  | .str s => decide (s ≠ "")
  | .num q => decide (q ≠ 0)
  | .bool b => b
  | .null => false
  | .raw _ => true

/-- Python `str()` of a `Value` (used for f-string interpolation sites). -/
def Value.pyStr : Value → String
  | .str s => s
  | .num q => toString q
  | .bool b => if b then "True" else "False"
  | .null => "None"
  | .raw t => "raw#" ++ toString t

/-- Python `x or y` on values: left operand if truthy, else right operand. -/
def pyOr (a b : Value) : Value := if a.truthy then a else b

/-- Python `x or ''` rendered as a string (as in the name-derivation f-strings). -/
def pyStrOrEmpty (v : Value) : String := if v.truthy then v.pyStr else ""

/-- Python `str.strip()`: drop leading and trailing whitespace (character-list
implementation so that concrete instances evaluate in the kernel). -/
def pyStrip (s : String) : String :=
  String.mk ((s.data.dropWhile Char.isWhitespace).reverse.dropWhile
    Char.isWhitespace).reverse

/-- Association-list lookup (first matching key). -/
def alGet {α β : Type} [DecidableEq α] : List (α × β) → α → Option β
  | [], _ => none
  | p :: rest, k => if p.1 = k then some p.2 else alGet rest k

/-- Association-list update: replace the binding of `k` in place, else append. -/
def alSet {α β : Type} [DecidableEq α] : List (α × β) → α → β → List (α × β)
  | [], k, v => [(k, v)]
  | p :: rest, k, v => if p.1 = k then (k, v) :: rest else p :: alSet rest k v

/-- A Python dict: string keys to values, insertion-ordered. -/
abbrev Dict := List (String × Value)

/-- `d.get(k)`: the bound value, or `None` when the key is absent. -/
def dictGet (d : Dict) (k : String) : Value := (alGet d k).getD .null

/-- `k in d`. -/
def dictHas (d : Dict) (k : String) : Bool := (alGet d k).isSome

/-- `d[k] = v`. -/
def dictSet (d : Dict) (k : String) (v : Value) : Dict := alSet d k v

/-- `d.update(delta)`: each binding of `delta` written into `d` in order. -/
def dictMerge (d delta : Dict) : Dict := delta.foldl (fun acc p => dictSet acc p.1 p.2) d

/-! ## `app/pipeline/types.py` -/

/-- `StopCondition` (types.py lines 10-14). -/
inductive StopCondition where
  | CONTINUE
  | SKIP_REMAINING
  | FAIL
deriving DecidableEq, Repr

/-- One record of `PipelineContext.history` (types.py lines 59-65).
The wall-clock timestamp is not modelled. -/
structure HistoryEntry where
  station : String
  cost : ℚ
  status : StopCondition
  error : Option String
deriving DecidableEq, Repr

/-- `PipelineContext` (types.py lines 17-35); `progress_queue` and
`start_time` are UI/diagnostic fields and are not modelled. -/
structure PipelineContext where
  data : Dict
  budget_limit : ℚ
  history : List HistoryEntry
  total_cost : ℚ
  errors : List String
deriving DecidableEq, Repr

/-- `PipelineContext.update` (types.py lines 37-68): merge the delta when
non-empty, add the cost, append the history record, and append to `errors`
when an error message was given. -/
def PipelineContext.update (c : PipelineContext) (new_data : Dict)
    (station_name : String) (cost : ℚ) (status : StopCondition)
    (error : Option String) : PipelineContext :=
  { c with
    data := if new_data.isEmpty then c.data else dictMerge c.data new_data,
    total_cost := c.total_cost + cost,
    history := c.history ++ [⟨station_name, cost, status, error⟩],
    errors := match error with
      | some e => c.errors ++ [station_name ++ ": " ++ e]
      | none => c.errors }

/-- `PipelineContext.remaining_budget` (types.py lines 75-78). -/
def PipelineContext.remaining_budget (c : PipelineContext) : ℚ :=
  max 0 (c.budget_limit - c.total_cost)

/-- `PipelineContext.can_afford` (types.py lines 80-82). -/
def PipelineContext.can_afford (c : PipelineContext) (estimated_cost : ℚ) : Bool :=
  decide (c.total_cost + estimated_cost ≤ c.budget_limit)

/-! ## `app/pipeline/engine.py` -/

/-- The observable outcome of one `station.execute(ctx)` call as the engine
sees it: either a normal return `(delta, condition)`, or a raised exception
(`ChimeraEnrichmentError` and untyped exceptions land in the same model
branch; both engine handlers only append to `ctx.errors`). -/
inductive StationOutcome where
  | ok (delta : Dict) (cond : StopCondition)
  | err (msg : String)
deriving Repr

/-- A station as the engine consumes it: a name, a cost estimate, and a
behaviour mapping the current context data to an outcome. The behaviour
function abstracts `station.execute` including all of its I/O. -/
structure Station where
  name : String
  cost_estimate : ℚ
  behavior : Dict → StationOutcome

/-- The station loop of `PipelineEngine.run` (engine.py lines 65-133),
instrumented with a trace: one `(station_name, raised?)` entry per station
whose execution was started. On a normal return the engine calls
`ctx.update(result_data, name, cost_estimate, condition)` and then breaks on
`SKIP_REMAINING` or continues otherwise; on an exception it only appends the
message to `ctx.errors` and continues. `step_collector`, `log_buffer` and
`progress_queue` are UI-only and not modelled. -/
def runStations : List Station → PipelineContext → PipelineContext × List (String × Bool)
  | [], ctx => (ctx, [])
  | st :: rest, ctx =>
    match st.behavior ctx.data with
    | .ok delta cond =>
      let ctx1 := ctx.update delta st.name st.cost_estimate cond none
      match cond with
      | .SKIP_REMAINING => (ctx1, [(st.name, false)])
      | .CONTINUE =>
        let r := runStations rest ctx1
        (r.1, (st.name, false) :: r.2)
      | .FAIL =>
        let r := runStations rest ctx1
        (r.1, (st.name, false) :: r.2)
    | .err msg =>
      let r := runStations rest { ctx with errors := ctx.errors ++ [msg] }
      (r.1, (st.name, true) :: r.2)

/-- The name-derivation prologue of `PipelineEngine.run` (engine.py
lines 54-58), applied to the copied initial data. -/
def deriveName (d0 : Dict) : Dict :=
  let d :=
    if !(dictGet d0 "name").truthy &&
        ((dictGet d0 "fullName").truthy || (dictGet d0 "full_name").truthy ||
          (dictGet d0 "Name").truthy) then
      dictSet d0 "name"
        (pyOr (dictGet d0 "fullName")
          (pyOr (dictGet d0 "full_name") (pyOr (dictGet d0 "Name") (.str ""))))
    else d0
  if !(dictGet d "name").truthy &&
      ((dictGet d "firstName").truthy || (dictGet d "lastName").truthy) then
    dictSet d "name"
      (.str (pyStrip (pyStrOrEmpty (dictGet d "firstName") ++ " " ++
        pyStrOrEmpty (dictGet d "lastName"))))
  else d

/-- The result of `PipelineEngine.run`: the returned record, the final
context, and the instrumentation trace of started stations. -/
structure RunResult where
  final_data : Dict
  ctx : PipelineContext
  trace : List (String × Bool)
deriving Repr

/-- `PipelineEngine.run` (engine.py lines 41-146): copy the initial data,
derive `name`, run the stations, and return `ctx.data.copy()` extended with
the three `_pipeline_*` summary fields. -/
def PipelineEngine.run (route : List Station) (budget_limit : ℚ)
    (initial_data : Dict) : RunResult :=
  let data := deriveName initial_data
  let ctx0 : PipelineContext := ⟨data, budget_limit, [], 0, []⟩
  let r := runStations route ctx0
  let final :=
    dictSet
      (dictSet
        (dictSet r.1.data "_pipeline_cost" (.num r.1.total_cost))
        "_pipeline_stations_executed" (.num r.1.history.length))
      "_pipeline_errors" (.num r.1.errors.length)
  ⟨final, r.1, r.2⟩

/-! ## Concrete stations used in counterexamples and witnesses.
Costs and conditions mirror the concrete stations of
`app/pipeline/stations/enrichment.py` where noted. -/

/-- `IdentityStation` shape: cost 0.0, returning `CONTINUE` with no delta. -/
def identityStation : Station := ⟨"Identity Resolution", 0, fun _ => .ok [] .CONTINUE⟩

/-- `ChimeraStation` shape: cost 0.05, returning `CONTINUE` with no delta. -/
def chimeraStationStub : Station := ⟨"Chimera Deep Search", 1/20, fun _ => .ok [] .CONTINUE⟩

/-- `SkipTracingStation` shape: cost 0.15, returning `CONTINUE` with no delta. -/
def skipTracingStation : Station := ⟨"Skip-Tracing API", 3/20, fun _ => .ok [] .CONTINUE⟩

/-- A station whose cost estimate (10.0) exceeds the default budget. -/
def expensiveStation : Station := ⟨"Expensive API", 10, fun _ => .ok [] .CONTINUE⟩

/-- A station whose `process` raises an exception on every input. -/
def raisingStation : Station := ⟨"Raising Station", 0, fun _ => .err "boom"⟩

/-- `DatabaseSaveStation` failure shape: returns `({"saved": False}, FAIL)`
(enrichment.py line 744). -/
def dbSaveFailStation : Station :=
  ⟨"Database Save", 0, fun _ => .ok [("saved", .bool false)] .FAIL⟩

/-- `TelnyxGatekeepStation` rejection shape: returns the validation delta
with `SKIP_REMAINING` (enrichment.py line 627). -/
def gatekeepRejectStation : Station :=
  ⟨"Telnyx Gatekeep", 1/100, fun _ => .ok [("is_voip", .bool true)] .SKIP_REMAINING⟩

/-! ## `app/pipeline/validator.py`: entropy poison and blacklist -/

/-- `_norm_val` on a string (validator.py lines 49-51): strip then lowercase. -/
def normVal (s : String) : String :=
  String.mk ((pyStrip s).data.map Char.toLower)

/-- The Redis state the validator touches: the poison sets keyed by
`(provider, data_type, normalized_value)` — the sha256 hash of the
normalized value is modelled by the normalized value itself — each holding
its member set and current TTL, plus the provider blacklist keys with their
TTLs. -/
structure RedisState where
  poison : List ((String × String × String) × (List String × ℕ))
  blacklist : List (String × ℕ)
deriving DecidableEq, Repr

/-- Redis SADD on a member list: append when absent, no-op when present. -/
def saddList (members : List String) (x : String) : List String :=
  if x ∈ members then members else members ++ [x]

/-- The member set of a poison key (SMEMBERS; empty when the key is absent). -/
def poisonMembers (st : RedisState) (k : String × String × String) : List String :=
  ((alGet st.poison k).getD ([], 0)).1

/-- `blacklist_provider` (validator.py lines 72-89): set
`blacklist:provider:{provider} = "1"` with TTL `BLACKLIST_TTL = 14400`.
The fire-and-forget webhook POST is an external effect and is not
modelled. -/
def blacklist_provider (provider : String) (st : RedisState) : RedisState :=
  { st with blacklist := alSet st.blacklist ("blacklist:provider:" ++ provider) 14400 }

/-- `is_provider_blacklisted` (validator.py lines 63-69). -/
def is_provider_blacklisted (provider : String) (st : RedisState) : Bool :=
  (alGet st.blacklist ("blacklist:provider:" ++ provider)).isSome

/-- `record_data_point` (validator.py lines 97-125): normalize the value;
bail out on an empty value or a type other than phone/email; SADD the lead
id into the poison set and refresh its TTL to `POISON_TTL = 3600`; when
SCARD exceeds 3, blacklist the provider and return `True`. -/
def record_data_point (provider data_type value lead_id : String)
    (st : RedisState) : Bool × RedisState :=
  let v := normVal value
  if v = "" ∨ (¬ data_type = "phone" ∧ ¬ data_type = "email") then (false, st)
  else
    let key := (provider, data_type, v)
    let members := saddList (poisonMembers st key) lead_id
    let st1 : RedisState := ⟨alSet st.poison key (members, 3600), st.blacklist⟩
    if 3 < members.length then (true, blacklist_provider provider st1)
    else (false, st1)

/-- A sequence of `record_data_point` calls for the same
`(provider, data_type, value)`, returning the list of results and the final
state. -/
def recordAll (provider data_type value : String) :
    List String → RedisState → List Bool × RedisState
  | [], st => ([], st)
  | i :: rest, st =>
    let r := record_data_point provider data_type value i st
    let q := recordAll provider data_type value rest r.2
    (r.1 :: q.1, q.2)

/-! ## `app/pipeline/validator.py`: cross-source consensus -/

/-- The three keys `results_differ_significantly` compares. -/
inductive RKey where
  | phone
  | email
  | age
deriving DecidableEq, Repr

/-- A Chimera result map restricted to the keys the consensus functions
read. `none` models both an absent key and an explicit `None` value (the
code reads them through `.get`, which conflates the two); values are
modelled as strings. -/
structure RMap where
  phone : Option String
  email : Option String
  age : Option String
  chimera_phone : Option String
  chimera_email : Option String
  chimera_age : Option String
deriving DecidableEq, Repr

/-- The plain-key slot for `k`. -/
def RMap.plain (r : RMap) : RKey → Option String
  | .phone => r.phone
  | .email => r.email
  | .age => r.age

/-- The `chimera_`-prefixed slot for `k`. -/
def RMap.chim (r : RMap) : RKey → Option String
  | .phone => r.chimera_phone
  | .email => r.chimera_email
  | .age => r.chimera_age

/-- Python truthiness of an optional string. -/
def optTruthy : Option String → Bool
  | some s => decide (s ≠ "")
  | none => false

/-- `r.get(k) or r.get("chimera_" + k)` (validator.py lines 157-158):
the plain value when truthy, else the chimera-prefixed value. -/
def effVal (r : RMap) (k : RKey) : Option String :=
  if optTruthy (r.plain k) then r.plain k else r.chim k

/-- `_norm_val` on a possibly-missing value: `(v or "")` stripped and
lowercased. -/
def normValOpt : Option String → String
  | none => ""
  | some s => normVal s

/-- The digits-only projection used for phone-style comparison
(validator.py lines 147-148). `Char.isDigit` models Python `str.isdigit`
on the ASCII digits. -/
def digitsOnly (s : String) : String := String.mk (s.data.filter Char.isDigit)

/-- `_norm_comp` (validator.py lines 140-151): effectively equal when the
normalized strings agree, or when both digits-only projections are
non-empty and agree. -/
def norm_comp (a b : Option String) : Bool :=
  let sa := normValOpt a
  let sb := normValOpt b
  if sa = sb then true
  else
    let da := digitsOnly sa
    let db := digitsOnly sb
    if ¬ da = "" ∧ ¬ db = "" ∧ da = db then true else false

/-- `results_differ_significantly` (validator.py lines 154-163): some key
among phone/email/age whose effective values are not both `None` and are
not effectively equal. -/
def results_differ_significantly (r1 r2 : RMap) : Bool :=
  [RKey.phone, RKey.email, RKey.age].any (fun k =>
    if effVal r1 k = none ∧ effVal r2 k = none then false
    else ! norm_comp (effVal r1 k) (effVal r2 k))

/-- `check_cross_source` (validator.py lines 166-173). -/
def check_cross_source (r1 r2 : RMap) : Option String :=
  if results_differ_significantly r1 r2 then some "NEEDS_RECONCILIATION" else none

/-! ## `app/pipeline/stations/enrichment.py`: ChimeraStation -/

/-- `is_high_value` (validator.py lines 133-137): both a company and a
title field are non-empty after stripping. -/
def is_high_value (lead : Dict) : Bool :=
  let c := pyStrip (pyStrOrEmpty (pyOr (dictGet lead "company") (dictGet lead "Company")))
  let t := pyStrip (pyStrOrEmpty (pyOr (dictGet lead "title")
    (pyOr (dictGet lead "Title") (dictGet lead "headline"))))
  decide (c ≠ "") && decide (t ≠ "")

/-- `should_trigger_olmocr_verification` (validator.py lines 181-183);
the confidence is a rational in the model. -/
def should_trigger_olmocr_verification (confidence : ℚ) : Bool :=
  decide (confidence < 95/100)

/-- A parsed successful Chimera Core reply, restricted to the fields the
station reads; values are modelled as strings, `vision_confidence` as an
optional rational (`none` models both an absent key and the `confidence`
fallback being absent, in which case the code uses 1.0). -/
structure ChResult where
  phone : Option String
  email : Option String
  age : Option String
  income : Option String
  captcha_solved : Bool
  vision_confidence : Option ℚ
deriving Repr

/-- `apply_consensus_protocol` (validator.py lines 186-197): flag
`NEEDS_OLMOCR_VERIFICATION` when the (falsy-defaulted-to-1.0) confidence is
below 0.95. -/
def apply_consensus_protocol (rep : ChResult) : Dict :=
  let c0 := rep.vision_confidence.getD 1
  let c := if c0 = 0 then 1 else c0
  if should_trigger_olmocr_verification c then
    [("NEEDS_OLMOCR_VERIFICATION", .bool true)]
  else []

/-- View a reply as a consensus result map (raw replies carry no
`chimera_`-prefixed keys). -/
def ChResult.toRMap (rep : ChResult) : RMap :=
  ⟨rep.phone, rep.email, rep.age, none, none, none⟩

/-- One provider attempt of the ChimeraStation loop, as observed through
its Redis/router interactions: the push-or-BRPOP exception, the BRPOP
timeout, the unparseable reply, the non-dict reply and the
`status == "failed"` reply all record a failure and move to the next
provider; a successful reply carries the parsed result and, for the
high-value cross-source path, the optional parsed second-provider reply
(`none` when no second provider or no usable second reply). -/
inductive ChAttempt where
  | pushFail
  | timeout
  | parseFail
  | badType
  | coreFailed
  | success (rep : ChResult) (second : Option ChResult)

/-- Whether an attempt is the successful one. -/
def ChAttempt.isSuccess : ChAttempt → Bool
  | .success _ _ => true
  | _ => false

/-- The delta built on the success path (enrichment.py lines 422-489):
`chimera_`-prefixed copies of income/age/phone/email, raw phone and email,
`chimera_raw`, the vision-consensus flag, and — for a high-value lead with
a usable second reply — the `NEEDS_RECONCILIATION` flag from
`check_cross_source`. -/
def chimeraOut (lead : Dict) (rep : ChResult) (second : Option ChResult) : Dict :=
  let out : Dict := []
  let out := match rep.income with
    | some v => out ++ [("chimera_income", Value.str v)] | none => out
  let out := match rep.age with
    | some v => out ++ [("chimera_age", Value.str v)] | none => out
  let out := match rep.phone with
    | some v => out ++ [("chimera_phone", Value.str v)] | none => out
  let out := match rep.email with
    | some v => out ++ [("chimera_email", Value.str v)] | none => out
  let out := match rep.phone with
    | some v => out ++ [("phone", Value.str v)] | none => out
  let out := match rep.email with
    | some v => out ++ [("email", Value.str v)] | none => out
  let out := out ++ [("chimera_raw", Value.raw 0)]
  let out := out ++ apply_consensus_protocol rep
  if is_high_value lead then
    match second with
    | some rep2 =>
      if (check_cross_source rep.toRMap rep2.toRMap).isSome then
        out ++ [("NEEDS_RECONCILIATION", Value.bool true)]
      else out
    | none => out
  else out

/-- The name resolution of `ChimeraStation.process` (enrichment.py
lines 239-241): `(name or fullName or "").strip()`, falling back to
`"{firstName} {lastName}".strip()`. -/
def resolveChimeraName (d : Dict) : String :=
  let n := pyStrip (pyStrOrEmpty (pyOr (dictGet d "name") (dictGet d "fullName")))
  if n = "" then
    pyStrip (pyStrOrEmpty (dictGet d "firstName") ++ " " ++
      pyStrOrEmpty (dictGet d "lastName"))
  else n

/-- The provider loop of `ChimeraStation.process` (enrichment.py
lines 269-495): every failed attempt records the failure and moves to the
next provider; the first successful attempt returns its delta with
`CONTINUE`; when the providers are exhausted (`get_next_provider` returns
`None`) the loop returns an empty delta with `CONTINUE`. -/
def chimeraLoop (lead : Dict) : List ChAttempt → Dict × StopCondition
  | [] => ([], .CONTINUE)
  | .success rep second :: _ => (chimeraOut lead rep second, .CONTINUE)
  | .pushFail :: rest => chimeraLoop lead rest
  | .timeout :: rest => chimeraLoop lead rest
  | .parseFail :: rest => chimeraLoop lead rest
  | .badType :: rest => chimeraLoop lead rest
  | .coreFailed :: rest => chimeraLoop lead rest

/-- `ChimeraStation.process` (enrichment.py lines 234-495):
fail when no LinkedIn URL, fail when no resolvable name, return `CONTINUE`
with no delta when the pause flag is still set after the bounded wait, else
run the provider loop. `paused_after_wait` models the pause-gate state
after the 120-second poll; `attempts` models the per-provider observations
of the loop. -/
def ChimeraStation.process (lead : Dict) (paused_after_wait : Bool)
    (attempts : List ChAttempt) : Dict × StopCondition :=
  let linkedin := pyOr (dictGet lead "linkedinUrl")
    (pyOr (dictGet lead "linkedin_url") (.str ""))
  if !linkedin.truthy then ([], .FAIL)
  else if resolveChimeraName lead = "" then ([], .FAIL)
  else if paused_after_wait then ([], .CONTINUE)
  else chimeraLoop lead attempts

/-! ## `app/pipeline/stations/enrichment.py`: TelnyxGatekeepStation -/

/-- `TelnyxGatekeepStation.process` (enrichment.py lines 609-636): `FAIL`
with no delta when no truthy phone is in the context; otherwise run
`validate_phone_telnyx` — `none` models the validation raising, in which
case the station fails open with `CONTINUE` and no delta — and reject with
`SKIP_REMAINING` when the result is junk, VOIP, or landline without being
mobile, returning the whole validation dict as the delta either way. The
flags are read with `validation.get(k, False)` and tested for
truthiness. -/
def TelnyxGatekeepStation.process (lead : Dict) (validation : Option Dict) :
    Dict × StopCondition :=
  if !(dictGet lead "phone").truthy then ([], .FAIL)
  else
    match validation with
    | none => ([], .CONTINUE)
    | some v =>
      let is_junk := (dictGet v "is_junk").truthy
      let is_voip := (dictGet v "is_voip").truthy
      let is_landline := (dictGet v "is_landline").truthy
      let is_mobile := (dictGet v "is_mobile").truthy
      if is_junk || is_voip || (is_landline && !is_mobile) then
        (v, .SKIP_REMAINING)
      else (v, .CONTINUE)

/-! ## C10: `run` never mutates the caller's `initial_data`

Python dict mutation is modelled with an explicit heap of dict objects
addressed by references: `data = initial_data.copy()` (engine.py line 54)
allocates a fresh object, every `self.data.update(...)` inside
`ctx.update` writes to that object, and `final_data = ctx.data.copy()`
(line 141) allocates another fresh object that then receives the three
summary fields. -/

/-- A heap of Python dict objects. -/
abbrev Heap := List Dict

/-- Dereference: the dict object at reference `r`. -/
def hget (h : Heap) (r : Nat) : Dict := h[r]?.getD []

/-- In-place mutation of the object at reference `r`. -/
def hset (h : Heap) (r : Nat) (d : Dict) : Heap := h.set r d

/-- A pipeline context whose `data` field is a reference into the heap. -/
structure HCtx where
  dataRef : Nat
  budget_limit : ℚ
  history : List HistoryEntry
  total_cost : ℚ
  errors : List String

/-- The engine station loop over the heap: `ctx.update` mutates the dict
object behind `ctx.data` in place (types.py line 56) and the loop otherwise
follows `runStations`. -/
def runStationsHeap : List Station → Heap → HCtx → Heap × HCtx
  | [], h, c => (h, c)
  | st :: rest, h, c =>
    match st.behavior (hget h c.dataRef) with
    | .ok delta cond =>
      let h1 := if delta.isEmpty then h
        else hset h c.dataRef (dictMerge (hget h c.dataRef) delta)
      let c1 := { c with
        total_cost := c.total_cost + st.cost_estimate,
        history := c.history ++ [⟨st.name, st.cost_estimate, cond, none⟩] }
      match cond with
      | .SKIP_REMAINING => (h1, c1)
      | .CONTINUE => runStationsHeap rest h1 c1
      | .FAIL => runStationsHeap rest h1 c1
    | .err msg => runStationsHeap rest h { c with errors := c.errors ++ [msg] }

/-- `PipelineEngine.run` over the heap: copy the caller's dict into a fresh
object, derive `name` on the copy, run the stations against that object,
then copy the result into another fresh object extended with the three
`_pipeline_*` summary fields and return its reference. -/
def PipelineEngine.runHeap (route : List Station) (budget_limit : ℚ)
    (h : Heap) (initRef : Nat) : Heap × Nat :=
  let data := deriveName (hget h initRef)
  let h1 := h ++ [data]
  let c0 : HCtx := ⟨h.length, budget_limit, [], 0, []⟩
  let r := runStationsHeap route h1 c0
  let final :=
    dictSet
      (dictSet
        (dictSet (hget r.1 h.length) "_pipeline_cost" (.num r.2.total_cost))
        "_pipeline_stations_executed" (.num r.2.history.length))
      "_pipeline_errors" (.num r.2.errors.length)
  (r.1 ++ [final], r.1.length)

/-! ## C1 / C2: budget enforcement -/

/-- C1. The claim states that `PipelineEngine.run` checks the budget before
each station so `total_cost ≤ budget_limit` always holds. The station loop
(engine.py lines 65-133) never consults `budget_limit` or `can_afford`: with
budget 5 a single station of cost 10 runs and drives `total_cost` to 10,
violating the invariant, even though the engine docstring advertises
"Budget management (auto stop-loss)". -/
theorem c1_budget_not_enforced :
    (PipelineEngine.run [expensiveStation] 5 []).ctx.total_cost = 10 ∧
    ¬ ((PipelineEngine.run [expensiveStation] 5 []).ctx.total_cost ≤
        (PipelineEngine.run [expensiveStation] 5 []).ctx.budget_limit) ∧
    (PipelineEngine.run [expensiveStation] 5 []).ctx.can_afford 0 = false := by
  refine ⟨?_, ?_, ?_⟩ <;>
    norm_num [PipelineEngine.run, runStations, PipelineContext.update,
      PipelineContext.can_afford, expensiveStation, deriveName, dictGet, alGet,
      Value.truthy]

/-- C2. The claim (and spec scenario 5) state that when
`total_cost + cost_estimate > budget_limit` before a station, a
"budget exhausted" failure is recorded and the run terminates. On the
spec's own scenario (budget 0.10; Identity 0.00, Chimera 0.05,
Skip-Tracing 0.15) the engine starts all three stations, records no error
at all, and spends 0.20: no budget gate exists in the loop. -/
theorem c2_budget_exhaustion_not_fatal :
    (PipelineEngine.run [identityStation, chimeraStationStub, skipTracingStation]
        (1/10) []).trace =
      [("Identity Resolution", false), ("Chimera Deep Search", false),
        ("Skip-Tracing API", false)] ∧
    (PipelineEngine.run [identityStation, chimeraStationStub, skipTracingStation]
        (1/10) []).ctx.history.length = 3 ∧
    (PipelineEngine.run [identityStation, chimeraStationStub, skipTracingStation]
        (1/10) []).ctx.errors = [] ∧
    (PipelineEngine.run [identityStation, chimeraStationStub, skipTracingStation]
        (1/10) []).ctx.total_cost = 1/5 := by
  refine ⟨?_, ?_, ?_, ?_⟩ <;>
    norm_num [PipelineEngine.run, runStations, PipelineContext.update,
      identityStation, chimeraStationStub, skipTracingStation, deriveName,
      dictGet, alGet, Value.truthy]

/-! ## C3: SKIP_REMAINING terminates the route -/

/-- C3. When a station's execution returns `SKIP_REMAINING`, the engine
updates the context with that station's record and breaks out of the loop
(engine.py lines 88-90): the result does not depend on the remaining route,
the trace contains only that station, its history entry is the last one
appended, and no error is recorded. -/
theorem c3_skip_remaining_stops (st : Station) (rest : List Station)
    (ctx : PipelineContext) (delta : Dict)
    (h : st.behavior ctx.data = .ok delta .SKIP_REMAINING) :
    runStations (st :: rest) ctx =
      (ctx.update delta st.name st.cost_estimate .SKIP_REMAINING none,
        [(st.name, false)]) ∧
    (runStations (st :: rest) ctx).1.history =
      ctx.history ++ [⟨st.name, st.cost_estimate, .SKIP_REMAINING, none⟩] ∧
    (runStations (st :: rest) ctx).1.errors = ctx.errors := by
  refine ⟨?_, ?_, ?_⟩ <;> simp [runStations, h, PipelineContext.update]

/-- Witness for C3 at a concrete rejecting gatekeeper followed by a
skip-tracing station that is never invoked. -/
theorem c3_skip_remaining_stops_witness :
    gatekeepRejectStation.behavior
        (⟨[("phone", Value.str "5551234567")], 5, [], 0, []⟩ : PipelineContext).data =
      .ok [("is_voip", .bool true)] .SKIP_REMAINING ∧
    (runStations [gatekeepRejectStation, skipTracingStation]
        ⟨[("phone", Value.str "5551234567")], 5, [], 0, []⟩ =
      ((⟨[("phone", Value.str "5551234567")], 5, [], 0, []⟩ : PipelineContext).update
          [("is_voip", .bool true)] gatekeepRejectStation.name
          gatekeepRejectStation.cost_estimate .SKIP_REMAINING none,
        [(gatekeepRejectStation.name, false)]) ∧
      (runStations [gatekeepRejectStation, skipTracingStation]
          ⟨[("phone", Value.str "5551234567")], 5, [], 0, []⟩).1.history =
        (⟨[("phone", Value.str "5551234567")], 5, [], 0, []⟩ : PipelineContext).history ++
          [⟨gatekeepRejectStation.name, gatekeepRejectStation.cost_estimate,
            .SKIP_REMAINING, none⟩] ∧
      (runStations [gatekeepRejectStation, skipTracingStation]
          ⟨[("phone", Value.str "5551234567")], 5, [], 0, []⟩).1.errors =
        (⟨[("phone", Value.str "5551234567")], 5, [], 0, []⟩ : PipelineContext).errors) :=
  ⟨rfl, c3_skip_remaining_stops gatekeepRejectStation [skipTracingStation]
    ⟨[("phone", Value.str "5551234567")], 5, [], 0, []⟩ [("is_voip", .bool true)] rfl⟩

/-! ## C4: history length vs. started stations -/

/-- C4 counterexample. A station that raises starts executing but appends no
history record: the engine's exception handlers (engine.py lines 95-133)
only append to `ctx.errors`, so after one raising station the trace has one
started station while `history` is empty. -/
theorem c4_raising_station_no_history :
    (PipelineEngine.run [raisingStation] 5 []).trace.length = 1 ∧
    (PipelineEngine.run [raisingStation] 5 []).ctx.history.length = 0 ∧
    (PipelineEngine.run [raisingStation] 5 []).ctx.errors = ["boom"] := by
  refine ⟨by decide, by decide, by decide⟩

/-- C4 amended. History is append-only and gains exactly one record per
started station whose execution returned normally; a station that raised
contributes a trace entry (and an error) but no history record. -/
theorem c4_history_counts_ok_stations (route : List Station) (ctx : PipelineContext) :
    ∃ s : List HistoryEntry,
      (runStations route ctx).1.history = ctx.history ++ s ∧
      s.length = ((runStations route ctx).2.filter (fun e => !e.2)).length := by
  induction route generalizing ctx with
  | nil => exact ⟨[], by simp [runStations]⟩
  | cons st rest ih =>
    cases h : st.behavior ctx.data with
    | ok delta cond =>
      cases cond with
      | SKIP_REMAINING =>
        refine ⟨[⟨st.name, st.cost_estimate, .SKIP_REMAINING, none⟩], ?_, ?_⟩ <;>
          simp [runStations, h, PipelineContext.update]
      | CONTINUE =>
        obtain ⟨s, hs, hlen⟩ := ih (ctx.update delta st.name st.cost_estimate .CONTINUE none)
        refine ⟨⟨st.name, st.cost_estimate, .CONTINUE, none⟩ :: s, ?_, ?_⟩ <;>
          simp [runStations, h, PipelineContext.update] at hs hlen ⊢ <;>
          simp [hs, hlen]
      | FAIL =>
        obtain ⟨s, hs, hlen⟩ := ih (ctx.update delta st.name st.cost_estimate .FAIL none)
        refine ⟨⟨st.name, st.cost_estimate, .FAIL, none⟩ :: s, ?_, ?_⟩ <;>
          simp [runStations, h, PipelineContext.update] at hs hlen ⊢ <;>
          simp [hs, hlen]
    | err msg =>
      obtain ⟨s, hs, hlen⟩ := ih { ctx with errors := ctx.errors ++ [msg] }
      refine ⟨s, ?_, ?_⟩ <;> simp [runStations, h] at hs hlen ⊢ <;> simp [hs, hlen]

/-! ## C5: FAIL deltas -/

/-- C5 counterexample. The engine passes the station's delta to `ctx.update`
unconditionally (engine.py line 87), and `update` merges any non-empty delta
regardless of the stop condition (types.py lines 55-56): a station returning
`({"saved": False}, FAIL)` changes `ctx.data`. -/
theorem c5_fail_delta_merged_counterexample :
    (runStations [dbSaveFailStation]
        ⟨[("linkedinUrl", Value.str "u")], 5, [], 0, []⟩).1.data ≠
      [("linkedinUrl", Value.str "u")] ∧
    dictGet ((runStations [dbSaveFailStation]
        ⟨[("linkedinUrl", Value.str "u")], 5, [], 0, []⟩).1.data) "saved" =
      .bool false := by
  refine ⟨by decide, by decide⟩

/-- C5 amended. After a station returns `(delta, FAIL)` the engine applies
`ctx.update` — which merges a non-empty delta into `ctx.data` — appends the
history record, and proceeds to the next station. -/
theorem c5_fail_merges_delta_and_proceeds (st : Station) (rest : List Station)
    (ctx : PipelineContext) (delta : Dict)
    (h : st.behavior ctx.data = .ok delta .FAIL) :
    runStations (st :: rest) ctx =
      ((runStations rest (ctx.update delta st.name st.cost_estimate .FAIL none)).1,
        (st.name, false) ::
          (runStations rest (ctx.update delta st.name st.cost_estimate .FAIL none)).2) ∧
    (ctx.update delta st.name st.cost_estimate .FAIL none).data =
      (if delta.isEmpty then ctx.data else dictMerge ctx.data delta) ∧
    (ctx.update delta st.name st.cost_estimate .FAIL none).history =
      ctx.history ++ [⟨st.name, st.cost_estimate, .FAIL, none⟩] := by
  refine ⟨?_, ?_, ?_⟩ <;> simp [runStations, h, PipelineContext.update]

/-- Witness for C5 (amended) at the concrete failing database-save station. -/
theorem c5_fail_merges_delta_witness :
    dbSaveFailStation.behavior
        (⟨[("linkedinUrl", Value.str "u")], 5, [], 0, []⟩ : PipelineContext).data =
      .ok [("saved", .bool false)] .FAIL ∧
    (runStations [dbSaveFailStation, identityStation]
        ⟨[("linkedinUrl", Value.str "u")], 5, [], 0, []⟩ =
      ((runStations [identityStation]
          ((⟨[("linkedinUrl", Value.str "u")], 5, [], 0, []⟩ : PipelineContext).update
            [("saved", .bool false)] dbSaveFailStation.name
            dbSaveFailStation.cost_estimate .FAIL none)).1,
        (dbSaveFailStation.name, false) ::
          (runStations [identityStation]
            ((⟨[("linkedinUrl", Value.str "u")], 5, [], 0, []⟩ : PipelineContext).update
              [("saved", .bool false)] dbSaveFailStation.name
              dbSaveFailStation.cost_estimate .FAIL none)).2) ∧
      ((⟨[("linkedinUrl", Value.str "u")], 5, [], 0, []⟩ : PipelineContext).update
          [("saved", .bool false)] dbSaveFailStation.name
          dbSaveFailStation.cost_estimate .FAIL none).data =
        (if ([("saved", Value.bool false)] : Dict).isEmpty then
            [("linkedinUrl", Value.str "u")]
          else dictMerge [("linkedinUrl", Value.str "u")] [("saved", .bool false)]) ∧
      ((⟨[("linkedinUrl", Value.str "u")], 5, [], 0, []⟩ : PipelineContext).update
          [("saved", .bool false)] dbSaveFailStation.name
          dbSaveFailStation.cost_estimate .FAIL none).history =
        (⟨[("linkedinUrl", Value.str "u")], 5, [], 0, []⟩ : PipelineContext).history ++
          [⟨dbSaveFailStation.name, dbSaveFailStation.cost_estimate, .FAIL, none⟩]) :=
  ⟨rfl, c5_fail_merges_delta_and_proceeds dbSaveFailStation [identityStation]
    ⟨[("linkedinUrl", Value.str "u")], 5, [], 0, []⟩ [("saved", .bool false)] rfl⟩

/-- Lookup after an in-place association-list update at the same key. -/
theorem alGet_alSet_self {α β : Type} [DecidableEq α] (l : List (α × β)) (k : α) (v : β) :
    alGet (alSet l k v) k = some v := by
  induction l with
  | nil => simp [alGet, alSet]
  | cons p rest ih =>
    by_cases h : p.1 = k
    · simp [alGet, alSet, h]
    · simp [alGet, alSet, h, ih]

/-- SADD grows the member list by at most one element. -/
theorem saddList_length_le (m : List String) (x : String) :
    (saddList m x).length ≤ m.length + 1 := by
  unfold saddList
  split <;> simp

/-- SADD preserves distinctness of the member list. -/
theorem saddList_nodup {m : List String} (h : m.Nodup) (x : String) :
    (saddList m x).Nodup := by
  unfold saddList
  split
  · exact h
  · rename_i hx
    simpa [List.concat_eq_append] using List.Nodup.concat hx h

/-- SADD stays inside any superset containing the new member. -/
theorem saddList_subset {m S : List String} {x : String}
    (hm : m ⊆ S) (hx : x ∈ S) : saddList m x ⊆ S := by
  unfold saddList
  split
  · exact hm
  · intro y hy
    rcases List.mem_append.mp hy with h | h
    · exact hm h
    · simpa using (List.mem_singleton.mp h) ▸ hx

/-- Any number of `record_data_point` calls whose lead ids are drawn from a
pool of at most three distinct leads returns `False` every time and leaves
the blacklist untouched. -/
theorem recordAll_le_three_no_blacklist (p t v l1 l2 l3 : String)
    (ht : t = "phone" ∨ t = "email") (hv : ¬ normVal v = "") :
    ∀ (ids : List String) (st : RedisState),
      (∀ x ∈ ids, x ∈ [l1, l2, l3]) →
      (poisonMembers st (p, t, normVal v)).Nodup →
      (poisonMembers st (p, t, normVal v)) ⊆ [l1, l2, l3] →
      (∀ b ∈ (recordAll p t v ids st).1, b = false) ∧
      (recordAll p t v ids st).2.blacklist = st.blacklist := by
  intro ids
  induction ids with
  | nil => intro st _ _ _; simp [recordAll]
  | cons i rest ih =>
    intro st hids hnd hsub
    have hit : i ∈ [l1, l2, l3] := hids i (by simp)
    have hguard : ¬ (normVal v = "" ∨ (¬ t = "phone" ∧ ¬ t = "email")) := by
      rcases ht with h | h <;> simp [h, hv]
    have hmem_nd : (saddList (poisonMembers st (p, t, normVal v)) i).Nodup :=
      saddList_nodup hnd i
    have hmem_sub : saddList (poisonMembers st (p, t, normVal v)) i ⊆ [l1, l2, l3] :=
      saddList_subset hsub hit
    have hlen : (saddList (poisonMembers st (p, t, normVal v)) i).length ≤ 3 := by
      have := (List.Nodup.subperm hmem_nd hmem_sub).length_le
      simpa using this
    have hnot : ¬ 3 < (saddList (poisonMembers st (p, t, normVal v)) i).length := by
      omega
    have hstep : record_data_point p t v i st =
        (false, ⟨alSet st.poison (p, t, normVal v)
          (saddList (poisonMembers st (p, t, normVal v)) i, 3600), st.blacklist⟩) := by
      unfold record_data_point
      rw [if_neg hguard, if_neg hnot]
    have hnd' : (poisonMembers ⟨alSet st.poison (p, t, normVal v)
        (saddList (poisonMembers st (p, t, normVal v)) i, 3600), st.blacklist⟩
        (p, t, normVal v)).Nodup := by
      simpa [poisonMembers, alGet_alSet_self] using hmem_nd
    have hsub' : poisonMembers ⟨alSet st.poison (p, t, normVal v)
        (saddList (poisonMembers st (p, t, normVal v)) i, 3600), st.blacklist⟩
        (p, t, normVal v) ⊆ [l1, l2, l3] := by
      simpa [poisonMembers, alGet_alSet_self] using hmem_sub
    obtain ⟨hall, hbl⟩ := ih _ (fun x hx => hids x (by simp [hx])) hnd' hsub'
    constructor
    · intro b hb
      simp only [recordAll, hstep] at hb
      rcases List.mem_cons.mp hb with h | h
      · exact h
      · exact hall b h
    · simp only [recordAll, hstep]
      exact hbl

/-- C6. For any provider, data type in {phone, email} and value with a
non-empty normalization: any sequence of `record_data_point` calls whose
lead ids come from at most three distinct leads returns `False` throughout
and sets no blacklist key; and starting from a clean state, calls from four
pairwise-distinct lead ids return `False` three times, leave the provider
unblacklisted after the third call, then return `True` on the fourth call
and set `blacklist:provider:{provider}` with TTL 14400 seconds. -/
theorem c6_entropy_poison_blacklist (p t v l1 l2 l3 l4 : String)
    (ht : t = "phone" ∨ t = "email") (hv : ¬ normVal v = "")
    (h12 : l1 ≠ l2) (h13 : l1 ≠ l3) (h14 : l1 ≠ l4)
    (h23 : l2 ≠ l3) (h24 : l2 ≠ l4) (h34 : l3 ≠ l4) :
    (∀ ids : List String, (∀ x ∈ ids, x ∈ [l1, l2, l3]) →
      (∀ b ∈ (recordAll p t v ids ⟨[], []⟩).1, b = false) ∧
      (recordAll p t v ids ⟨[], []⟩).2.blacklist = []) ∧
    ((recordAll p t v [l1, l2, l3] ⟨[], []⟩).1 = [false, false, false] ∧
      is_provider_blacklisted p (recordAll p t v [l1, l2, l3] ⟨[], []⟩).2 = false ∧
      (record_data_point p t v l4 (recordAll p t v [l1, l2, l3] ⟨[], []⟩).2).1 = true ∧
      alGet (record_data_point p t v l4
          (recordAll p t v [l1, l2, l3] ⟨[], []⟩).2).2.blacklist
          ("blacklist:provider:" ++ p) = some 14400) := by
  have hguard : ¬ (normVal v = "" ∨ (¬ t = "phone" ∧ ¬ t = "email")) := by
    rcases ht with h | h <;> simp [h, hv]
  constructor
  · intro ids hids
    exact recordAll_le_three_no_blacklist p t v l1 l2 l3 ht hv ids ⟨[], []⟩ hids
      (by simp [poisonMembers, alGet]) (by simp [poisonMembers, alGet])
  · have e0 : poisonMembers ⟨[], []⟩ (p, t, normVal v) = [] := by
      simp [poisonMembers, alGet]
    have s1 : record_data_point p t v l1 ⟨[], []⟩ =
        (false, ⟨alSet [] (p, t, normVal v) ([l1], 3600), []⟩) := by
      unfold record_data_point
      rw [if_neg hguard]
      simp [e0, saddList]
    have e1 : poisonMembers ⟨alSet [] (p, t, normVal v) ([l1], 3600), []⟩
        (p, t, normVal v) = [l1] := by
      simp [poisonMembers, alGet_alSet_self]
    have s2 : record_data_point p t v l2 ⟨alSet [] (p, t, normVal v) ([l1], 3600), []⟩ =
        (false, ⟨alSet (alSet [] (p, t, normVal v) ([l1], 3600)) (p, t, normVal v)
          ([l1, l2], 3600), []⟩) := by
      unfold record_data_point
      rw [if_neg hguard]
      simp [e1, saddList, h12.symm, Ne.symm]
    have e2 : poisonMembers ⟨alSet (alSet [] (p, t, normVal v) ([l1], 3600))
        (p, t, normVal v) ([l1, l2], 3600), []⟩ (p, t, normVal v) = [l1, l2] := by
      simp [poisonMembers, alGet_alSet_self]
    have s3 : record_data_point p t v l3 ⟨alSet (alSet [] (p, t, normVal v) ([l1], 3600))
        (p, t, normVal v) ([l1, l2], 3600), []⟩ =
        (false, ⟨alSet (alSet (alSet [] (p, t, normVal v) ([l1], 3600)) (p, t, normVal v)
          ([l1, l2], 3600)) (p, t, normVal v) ([l1, l2, l3], 3600), []⟩) := by
      unfold record_data_point
      rw [if_neg hguard]
      simp [e2, saddList, (Ne.symm h13), (Ne.symm h23)]
    have e3 : poisonMembers ⟨alSet (alSet (alSet [] (p, t, normVal v) ([l1], 3600))
        (p, t, normVal v) ([l1, l2], 3600)) (p, t, normVal v) ([l1, l2, l3], 3600), []⟩
        (p, t, normVal v) = [l1, l2, l3] := by
      simp [poisonMembers, alGet_alSet_self]
    have hrec : recordAll p t v [l1, l2, l3] ⟨[], []⟩ =
        ([false, false, false], ⟨alSet (alSet (alSet [] (p, t, normVal v) ([l1], 3600))
          (p, t, normVal v) ([l1, l2], 3600)) (p, t, normVal v)
          ([l1, l2, l3], 3600), []⟩) := by
      simp only [recordAll, s1, s2, s3]
    have s4 : (record_data_point p t v l4 (recordAll p t v [l1, l2, l3] ⟨[], []⟩).2).1 =
          true ∧
        (record_data_point p t v l4
          (recordAll p t v [l1, l2, l3] ⟨[], []⟩).2).2.blacklist =
          alSet [] ("blacklist:provider:" ++ p) 14400 := by
      rw [hrec]
      unfold record_data_point
      rw [if_neg hguard]
      simp [e3, saddList, Ne.symm h14, Ne.symm h24, Ne.symm h34, blacklist_provider]
    refine ⟨by rw [hrec], ?_, s4.1, ?_⟩
    · rw [hrec]
      simp [is_provider_blacklisted, alGet]
    · rw [s4.2]
      simp [alGet_alSet_self]

/-- Witness for C6 at concrete values: provider "ZabaSearch", type "phone",
value "+15550000000", four distinct LinkedIn-URL lead ids. -/
theorem c6_entropy_poison_blacklist_witness :
    (("phone" : String) = "phone" ∨ ("phone" : String) = "email") ∧
    (¬ normVal "+15550000000" = "") ∧
    ((∀ ids : List String, (∀ x ∈ ids, x ∈ ["a", "b", "c"]) →
      (∀ b ∈ (recordAll "ZabaSearch" "phone" "+15550000000" ids ⟨[], []⟩).1, b = false) ∧
      (recordAll "ZabaSearch" "phone" "+15550000000" ids ⟨[], []⟩).2.blacklist = []) ∧
    ((recordAll "ZabaSearch" "phone" "+15550000000" ["a", "b", "c"] ⟨[], []⟩).1 =
        [false, false, false] ∧
      is_provider_blacklisted "ZabaSearch"
        (recordAll "ZabaSearch" "phone" "+15550000000" ["a", "b", "c"] ⟨[], []⟩).2 = false ∧
      (record_data_point "ZabaSearch" "phone" "+15550000000" "d"
        (recordAll "ZabaSearch" "phone" "+15550000000" ["a", "b", "c"] ⟨[], []⟩).2).1 = true ∧
      alGet (record_data_point "ZabaSearch" "phone" "+15550000000" "d"
          (recordAll "ZabaSearch" "phone" "+15550000000" ["a", "b", "c"] ⟨[], []⟩).2).2.blacklist
          ("blacklist:provider:" ++ "ZabaSearch") = some 14400)) :=
  ⟨Or.inl rfl, by decide,
    c6_entropy_poison_blacklist "ZabaSearch" "phone" "+15550000000" "a" "b" "c" "d"
      (Or.inl rfl) (by decide) (by decide) (by decide) (by decide) (by decide)
      (by decide) (by decide)⟩

/-! ## C7: the cross-source differ test -/

/-- C7 counterexample. A result carrying only `phone` against an empty
result is reported as differing significantly even though no key has both
values present: the claim's "only triggers when both are non-null" reading
is false on the code, which returns `True` whenever one side is non-null
and the comparison fails (a non-empty value never compares equal to
`None`). -/
theorem c7_one_sided_presence_differs :
    results_differ_significantly
      ⟨some "5551234567", none, none, none, none, none⟩
      ⟨none, none, none, none, none, none⟩ = true ∧
    (∀ k : RKey,
      ¬ (effVal ⟨some "5551234567", none, none, none, none, none⟩ k ≠ none ∧
        effVal ⟨none, none, none, none, none, none⟩ k ≠ none)) := by
  refine ⟨by decide, ?_⟩
  intro k
  cases k <;> decide

/-- C7 amended. `results_differ_significantly` is true iff for some key
among phone, email, age — each read with fallback to its
`chimera_`-prefixed variant when the plain value is falsy — the two
effective values are not both null and `_norm_comp` rejects them, i.e.
they are unequal after strip/lowercase normalization and their digits-only
projections (the digit comparison applies to all three keys, not only
phone) are not both non-empty and equal. In particular one side present
and the other absent does make the results differ. `check_cross_source`
returns NEEDS_RECONCILIATION exactly when the results differ
significantly. -/
theorem c7_differ_significantly_amended (r1 r2 : RMap) :
    (results_differ_significantly r1 r2 = true ↔
      ∃ k : RKey, ¬ (effVal r1 k = none ∧ effVal r2 k = none) ∧
        norm_comp (effVal r1 k) (effVal r2 k) = false) ∧
    (check_cross_source r1 r2 = some "NEEDS_RECONCILIATION" ↔
      results_differ_significantly r1 r2 = true) := by
  constructor
  · rw [results_differ_significantly, List.any_eq_true]
    constructor
    · rintro ⟨k, -, hk⟩
      refine ⟨k, ?_⟩
      by_cases h : effVal r1 k = none ∧ effVal r2 k = none
      · simp [h] at hk
      · simp only [h, if_false] at hk
        exact ⟨h, by simpa using hk⟩
    · rintro ⟨k, hne, hcomp⟩
      refine ⟨k, by cases k <;> simp, ?_⟩
      simp [hne, hcomp]
  · rw [check_cross_source]
    by_cases h : results_differ_significantly r1 r2 <;> simp [h]

/-- The provider loop never yields anything but `CONTINUE`. -/
theorem chimeraLoop_continue (lead : Dict) (attempts : List ChAttempt) :
    (chimeraLoop lead attempts).2 = .CONTINUE := by
  induction attempts with
  | nil => rfl
  | cons a rest ih => cases a <;> simp [chimeraLoop, ih]

/-- The provider loop with no successful attempt yields an empty delta. -/
theorem chimeraLoop_exhausted (lead : Dict) (attempts : List ChAttempt)
    (h : ∀ a ∈ attempts, a.isSuccess = false) :
    chimeraLoop lead attempts = ([], .CONTINUE) := by
  induction attempts with
  | nil => rfl
  | cons a rest ih =>
    cases a with
    | success rep second =>
      have hs := h (ChAttempt.success rep second) (List.mem_cons_self _ _)
      simp [ChAttempt.isSuccess] at hs
    | pushFail => exact ih (fun x hx => h x (by simp [hx]))
    | timeout => exact ih (fun x hx => h x (by simp [hx]))
    | parseFail => exact ih (fun x hx => h x (by simp [hx]))
    | badType => exact ih (fun x hx => h x (by simp [hx]))
    | coreFailed => exact ih (fun x hx => h x (by simp [hx]))

/-! ## C8: ChimeraStation returns FAIL only for an unresolvable name -/

/-- C8. On a lead with a LinkedIn URL, `ChimeraStation.process` returns
`FAIL` exactly when the name cannot be resolved (no truthy `name` or
`fullName` and no `firstName`/`lastName` tokens); in every other case the
condition is `CONTINUE` — in particular, when every provider attempt failed
(provider exhaustion) the return is `CONTINUE` with an empty delta, never
`FAIL`. -/
theorem c8_chimera_fail_only_unresolvable_name (lead : Dict)
    (paused_after_wait : Bool) (attempts : List ChAttempt)
    (hlink : (pyOr (dictGet lead "linkedinUrl")
      (pyOr (dictGet lead "linkedin_url") (.str ""))).truthy = true) :
    ((ChimeraStation.process lead paused_after_wait attempts).2 = .FAIL ↔
      resolveChimeraName lead = "") ∧
    (¬ resolveChimeraName lead = "" → paused_after_wait = false →
      (∀ a ∈ attempts, a.isSuccess = false) →
      ChimeraStation.process lead paused_after_wait attempts = ([], .CONTINUE)) := by
  constructor
  · by_cases hname : resolveChimeraName lead = ""
    · simp [ChimeraStation.process, hlink, hname]
    · by_cases hp : paused_after_wait <;>
        simp [ChimeraStation.process, hlink, hname, hp, chimeraLoop_continue]
  · intro hname hp hfail
    simp [ChimeraStation.process, hlink, hname, hp,
      chimeraLoop_exhausted lead attempts hfail]

/-- Witness for C8: a lead with a LinkedIn URL and a full name, not paused,
whose two provider attempts both time out (exhaustion). -/
theorem c8_chimera_fail_only_unresolvable_name_witness :
    (pyOr (dictGet [("linkedinUrl", Value.str "https://linkedin.com/in/jd"),
        ("name", Value.str "John Doe")] "linkedinUrl")
      (pyOr (dictGet [("linkedinUrl", Value.str "https://linkedin.com/in/jd"),
        ("name", Value.str "John Doe")] "linkedin_url") (.str ""))).truthy = true ∧
    (((ChimeraStation.process [("linkedinUrl", Value.str "https://linkedin.com/in/jd"),
        ("name", Value.str "John Doe")] false [.timeout, .timeout]).2 = .FAIL ↔
      resolveChimeraName [("linkedinUrl", Value.str "https://linkedin.com/in/jd"),
        ("name", Value.str "John Doe")] = "") ∧
    (¬ resolveChimeraName [("linkedinUrl", Value.str "https://linkedin.com/in/jd"),
        ("name", Value.str "John Doe")] = "" → false = false →
      (∀ a ∈ ([.timeout, .timeout] : List ChAttempt), a.isSuccess = false) →
      ChimeraStation.process [("linkedinUrl", Value.str "https://linkedin.com/in/jd"),
        ("name", Value.str "John Doe")] false [.timeout, .timeout] = ([], .CONTINUE))) :=
  ⟨by decide,
    c8_chimera_fail_only_unresolvable_name
      [("linkedinUrl", Value.str "https://linkedin.com/in/jd"),
        ("name", Value.str "John Doe")] false [.timeout, .timeout] (by decide)⟩

/-! ## C9: the gatekeep rejection test -/

/-- C9 counterexample. A validation result marking the phone as landline
and also as mobile is accepted with `CONTINUE` — the code's test is
`is_junk or is_voip or (is_landline and not is_mobile)` (enrichment.py
line 622), so "landline" alone does not force `SKIP_REMAINING` as the
claim states. -/
theorem c9_landline_mobile_continues :
    TelnyxGatekeepStation.process [("phone", Value.str "5551234567")]
        (some [("is_landline", Value.bool true), ("is_mobile", Value.bool true)]) =
      ([("is_landline", Value.bool true), ("is_mobile", Value.bool true)],
        .CONTINUE) ∧
    (TelnyxGatekeepStation.process [("phone", Value.str "5551234567")]
        (some [("is_landline", Value.bool true), ("is_mobile", Value.bool true)])).2 ≠
      .SKIP_REMAINING := by
  refine ⟨by decide, by decide⟩

/-- C9 amended. For a context with a truthy phone and a validation result
that was produced without raising, the station returns the validation dict
as its delta, with `SKIP_REMAINING` exactly when the result is junk, VOIP,
or landline-and-not-mobile, and with `CONTINUE` otherwise (a
landline-flagged result that is also mobile-flagged continues). -/
theorem c9_gatekeep_amended (lead v : Dict)
    (hphone : (dictGet lead "phone").truthy = true) :
    TelnyxGatekeepStation.process lead (some v) =
      (v, if ((dictGet v "is_junk").truthy || (dictGet v "is_voip").truthy ||
          ((dictGet v "is_landline").truthy && !(dictGet v "is_mobile").truthy))
        then .SKIP_REMAINING else .CONTINUE) := by
  simp only [TelnyxGatekeepStation.process, hphone]
  split <;> split <;> simp_all

/-- Witness for C9 (amended) at a VOIP-flagged validation result. -/
theorem c9_gatekeep_amended_witness :
    (dictGet [("phone", Value.str "5551234567")] "phone").truthy = true ∧
    TelnyxGatekeepStation.process [("phone", Value.str "5551234567")]
        (some [("is_voip", Value.bool true)]) =
      ([("is_voip", Value.bool true)],
        if ((dictGet [("is_voip", Value.bool true)] "is_junk").truthy ||
            (dictGet [("is_voip", Value.bool true)] "is_voip").truthy ||
            ((dictGet [("is_voip", Value.bool true)] "is_landline").truthy &&
              !(dictGet [("is_voip", Value.bool true)] "is_mobile").truthy))
          then .SKIP_REMAINING else .CONTINUE) :=
  ⟨by decide, c9_gatekeep_amended [("phone", Value.str "5551234567")]
    [("is_voip", Value.bool true)] (by decide)⟩

/-- Mutating one object leaves every other reference unchanged. -/
theorem hget_hset_ne (h : Heap) (x r : Nat) (d : Dict) (hne : x ≠ r) :
    hget (hset h x d) r = hget h r := by
  simp [hget, hset, List.getElem?_set_ne hne]

/-- Allocation leaves existing references unchanged. -/
theorem hget_append_lt (h h2 : Heap) (r : Nat) (hr : r < h.length) :
    hget (h ++ h2) r = hget h r := by
  simp [hget, List.getElem?_append, hr]

/-- Dereferencing a fresh allocation. -/
theorem hget_append_self (h : Heap) (d : Dict) : hget (h ++ [d]) h.length = d := by
  simp [hget, List.getElem?_concat_length]

/-- The station loop writes only through `ctx.data`: every other reference
is unchanged. -/
theorem runStationsHeap_frame (route : List Station) :
    ∀ (h : Heap) (c : HCtx) (r : Nat), ¬ c.dataRef = r →
      hget (runStationsHeap route h c).1 r = hget h r := by
  induction route with
  | nil => intro h c r _; rfl
  | cons st rest ih =>
    intro h c r hne
    unfold runStationsHeap
    cases hb : st.behavior (hget h c.dataRef) with
    | ok delta cond =>
      have hstep : ∀ h' : Heap, hget h' r = hget h r →
          hget (if delta.isEmpty then h'
            else hset h' c.dataRef (dictMerge (hget h' c.dataRef) delta)) r =
            hget h r := by
        intro h' hh
        by_cases he : delta.isEmpty <;> simp [he, hget_hset_ne _ _ _ _ hne, hh]
      cases cond <;> simp only []
      · exact (ih _ { c with
            total_cost := c.total_cost + st.cost_estimate,
            history := c.history ++
              [⟨st.name, st.cost_estimate, .CONTINUE, none⟩] } r hne).trans
          (hstep h rfl)
      · exact hstep h rfl
      · exact (ih _ { c with
            total_cost := c.total_cost + st.cost_estimate,
            history := c.history ++
              [⟨st.name, st.cost_estimate, .FAIL, none⟩] } r hne).trans
          (hstep h rfl)
    | err msg => exact ih _ _ r hne

/-- The station loop allocates nothing: the heap size is preserved. -/
theorem runStationsHeap_length (route : List Station) :
    ∀ (h : Heap) (c : HCtx),
      (runStationsHeap route h c).1.length = h.length := by
  induction route with
  | nil => intro h c; rfl
  | cons st rest ih =>
    intro h c
    unfold runStationsHeap
    cases hb : st.behavior (hget h c.dataRef) with
    | ok delta cond =>
      have hlen : (if delta.isEmpty then h
          else hset h c.dataRef (dictMerge (hget h c.dataRef) delta)).length =
          h.length := by
        by_cases he : delta.isEmpty <;> simp [he, hset]
      cases cond <;> simp only []
      · exact (ih _ _).trans hlen
      · exact hlen
      · exact (ih _ _).trans hlen
    | err msg => exact ih _ _

/-- Lookup after an in-place association-list update at another key. -/
theorem alGet_alSet_ne {α β : Type} [DecidableEq α] (l : List (α × β))
    (k' k : α) (v : β) (hne : ¬ k' = k) :
    alGet (alSet l k' v) k = alGet l k := by
  have hne' : ¬ k = k' := fun hh => hne hh.symm
  induction l with
  | nil => simp [alGet, alSet, hne]
  | cons p rest ih =>
    by_cases h : p.1 = k'
    · simp [alGet, alSet, h, hne]
    · by_cases h2 : p.1 = k <;> simp [alGet, alSet, h, h2, ih, hne']

/-- C10. A run started on a live reference mutates only its own working
copy: the caller's `initial_data` object is unchanged after the run, the
returned record is a fresh object (a different reference), and it carries
the `_pipeline_cost`, `_pipeline_stations_executed` and `_pipeline_errors`
summary fields. -/
theorem c10_run_does_not_mutate_initial_data (route : List Station)
    (budget_limit : ℚ) (h : Heap) (initRef : Nat) (hr : initRef < h.length) :
    hget (PipelineEngine.runHeap route budget_limit h initRef).1 initRef =
      hget h initRef ∧
    ¬ (PipelineEngine.runHeap route budget_limit h initRef).2 = initRef ∧
    dictHas (hget (PipelineEngine.runHeap route budget_limit h initRef).1
      (PipelineEngine.runHeap route budget_limit h initRef).2)
      "_pipeline_cost" = true ∧
    dictHas (hget (PipelineEngine.runHeap route budget_limit h initRef).1
      (PipelineEngine.runHeap route budget_limit h initRef).2)
      "_pipeline_stations_executed" = true ∧
    dictHas (hget (PipelineEngine.runHeap route budget_limit h initRef).1
      (PipelineEngine.runHeap route budget_limit h initRef).2)
      "_pipeline_errors" = true := by
  have hwork : ¬ (⟨h.length, budget_limit, [], 0, []⟩ : HCtx).dataRef = initRef := by
    simp
    omega
  have hlen1 : (runStationsHeap route (h ++ [deriveName (hget h initRef)])
      ⟨h.length, budget_limit, [], 0, []⟩).1.length = h.length + 1 := by
    rw [runStationsHeap_length]
    simp
  refine ⟨?_, ?_, ?_, ?_, ?_⟩
  · show hget ((runStationsHeap route (h ++ [deriveName (hget h initRef)])
      ⟨h.length, budget_limit, [], 0, []⟩).1 ++ [_]) initRef = hget h initRef
    rw [hget_append_lt _ _ _ (by omega)]
    rw [runStationsHeap_frame route _ _ initRef hwork]
    exact hget_append_lt _ _ _ hr
  · show ¬ (runStationsHeap route (h ++ [deriveName (hget h initRef)])
      ⟨h.length, budget_limit, [], 0, []⟩).1.length = initRef
    omega
  all_goals
    show dictHas (hget ((runStationsHeap route (h ++ [deriveName (hget h initRef)])
      ⟨h.length, budget_limit, [], 0, []⟩).1 ++ [_])
      (runStationsHeap route (h ++ [deriveName (hget h initRef)])
        ⟨h.length, budget_limit, [], 0, []⟩).1.length) _ = true
  all_goals rw [hget_append_self]
  · simp [dictHas, dictSet,
      alGet_alSet_ne _ "_pipeline_errors" "_pipeline_cost" _ (by decide),
      alGet_alSet_ne _ "_pipeline_stations_executed" "_pipeline_cost" _ (by decide),
      alGet_alSet_self]
  · simp [dictHas, dictSet,
      alGet_alSet_ne _ "_pipeline_errors" "_pipeline_stations_executed" _ (by decide),
      alGet_alSet_self]
  · simp [dictHas, dictSet, alGet_alSet_self]

/-- Witness for C10 on a one-entry heap and the identity-station route. -/
theorem c10_run_does_not_mutate_initial_data_witness :
    (0 : Nat) < ([[("name", Value.str "John Doe")]] : Heap).length ∧
    (hget (PipelineEngine.runHeap [identityStation] 5
        [[("name", Value.str "John Doe")]] 0).1 0 =
      hget [[("name", Value.str "John Doe")]] 0 ∧
    ¬ (PipelineEngine.runHeap [identityStation] 5
        [[("name", Value.str "John Doe")]] 0).2 = 0 ∧
    dictHas (hget (PipelineEngine.runHeap [identityStation] 5
        [[("name", Value.str "John Doe")]] 0).1
      (PipelineEngine.runHeap [identityStation] 5
        [[("name", Value.str "John Doe")]] 0).2) "_pipeline_cost" = true ∧
    dictHas (hget (PipelineEngine.runHeap [identityStation] 5
        [[("name", Value.str "John Doe")]] 0).1
      (PipelineEngine.runHeap [identityStation] 5
        [[("name", Value.str "John Doe")]] 0).2) "_pipeline_stations_executed" = true ∧
    dictHas (hget (PipelineEngine.runHeap [identityStation] 5
        [[("name", Value.str "John Doe")]] 0).1
      (PipelineEngine.runHeap [identityStation] 5
        [[("name", Value.str "John Doe")]] 0).2) "_pipeline_errors" = true) :=
  ⟨by decide, c10_run_does_not_mutate_initial_data [identityStation] 5
    [[("name", Value.str "John Doe")]] 0 (by decide)⟩

end Scrapegoat
